import Mathlib

/-!
Verification of the LLM-Proxy-Api worker (request-forwarding proxy with an
operational store).  The development shallowly embeds the two source variants:
the durable-backend worker (`src/index.js` routing to the Durable Object in
`src/storage.js`) and the in-memory worker (`src/unnamed/part_001`).  JavaScript
values that matter to the claims (JSON scalars, truthiness, `parseInt`,
`Array.slice`, `String.replace` on its first occurrence) are modelled
explicitly; machine-level concerns (event loop, streaming bodies) are out of
scope and replaced by explicit oracle parameters where the code consults them.
-/

namespace LLMProxy

/-- JSON-like scalar value, as submitted by admin clients for config fields.
JavaScript truthiness and `typeof x === "string"` checks are modelled on it. -/
inductive JVal
  | jstr (s : String)
  | jnum (n : Int)
  | jbool (b : Bool)
  | jnull
deriving Repr, DecidableEq

/-- JavaScript truthiness of a `JVal`. -/
def JVal.truthy : JVal → Bool
  | .jstr s => s ≠ ""
  | .jnum n => n ≠ 0
  | .jbool b => b
  | .jnull => false

/-- `typeof v === "string"`. -/
def JVal.isString : JVal → Bool
  | .jstr _ => true
  | _ => false

/-- The single mutable configuration record kept by the store.  A field of
`none` models the key being absent from the persisted object. -/
structure ConfigRec where
  targetApiUrl : Option JVal := none
  adminPassword : Option JVal := none
  updatedAt : Option String := none
deriving Repr, DecidableEq

/-- A partial configuration update, as parsed from a `POST /config` body.
`some v` models the key being present in the JSON body with value `v`. -/
structure ConfigUpdate where
  targetApiUrl : Option JVal := none
  adminPassword : Option JVal := none
deriving Repr, DecidableEq

/-- One request-log entry.  Absent string fields are modelled by `""` (which is
exactly what the code's falsiness validation checks). -/
structure LogEntry where
  id : String := ""
  endpoint : String := ""
  targetApi : String := ""
  status : Int := 0
  duration : Int := 0
  timestamp : String := ""
  error : Option String := none
deriving Repr, DecidableEq

/-! ## Small JavaScript-semantics helpers -/

/-- Truthiness of a nullable string (`null`/`undefined`/`""` are falsy). -/
def strTruthy : Option String → Bool
  | none => false
  | some s => s ≠ ""

/-- JavaScript `a || d` for a nullable string `a` and string default `d`. -/
def jsOr (o : Option String) (d : String) : String :=
  match o with
  | none => d
  | some s => if s = "" then d else s

/-- `s.replace(/\/$/, '')`: strip exactly one trailing slash if present. -/
def stripTrailingSlash (s : String) : String :=
  if s.toList.getLast? = some '/' then String.mk s.toList.dropLast else s

/-- JavaScript `s.startsWith(p)` (modelled on the character list). -/
def litStartsWith (s p : String) : Bool :=
  p.toList.isPrefixOf s.toList

/-- Split a character list around the first occurrence of a pattern,
returning the parts before and after it (or `none` if it never occurs). -/
def splitFirstAux (pat : List Char) : List Char → Option (List Char × List Char)
  | [] => if pat = [] then some ([], []) else none
  | c :: cs =>
    if pat.isPrefixOf (c :: cs) then some ([], (c :: cs).drop pat.length)
    else
      match splitFirstAux pat cs with
      | some (pre, post) => some (c :: pre, post)
      | none => none

/-- JavaScript `s.replace(pat, repl)` with a plain-string pattern: replaces the
first occurrence only. -/
def replaceFirst (s pat repl : String) : String :=
  match splitFirstAux pat.toList s.toList with
  | some (pre, post) => String.mk (pre ++ repl.toList ++ post)
  | none => s

/-- Numeric value of a digit list (most significant first). -/
def digitsVal (cs : List Char) : Nat :=
  cs.foldl (fun a c => a * 10 + (c.toNat - 48)) 0

/-- Leading-digit-run parse used by `parseIntJS`. -/
def digitsPrefix (cs : List Char) : Option Nat :=
  let ds := cs.takeWhile Char.isDigit
  if ds.isEmpty then none else some (digitsVal ds)

/-- JavaScript `parseInt(s)` (radix 10): skip leading spaces, optional sign,
then the longest digit prefix; `none` models `NaN`. -/
def parseIntJS (s : String) : Option Int :=
  match s.toList.dropWhile (fun c => c = ' ') with
  | '-' :: rest => (digitsPrefix rest).map (fun n => -(n : Int))
  | '+' :: rest => (digitsPrefix rest).map (fun n => (n : Int))
  | cs => (digitsPrefix cs).map (fun n => (n : Int))

/-- JavaScript `arr.slice(start)` for a single (possibly negative) start:
a negative start counts from the end (clamped at 0), a nonnegative start is
clamped at the length. -/
def jsSlice (l : List LogEntry) (start : Int) : List LogEntry :=
  if start < 0 then l.drop (max ((l.length : Int) + start) 0).toNat
  else l.drop (min start (l.length : Int)).toNat

/-- The last `n` elements of a list, in order. -/
def lastN (n : Nat) (l : List LogEntry) : List LogEntry :=
  l.drop (l.length - n)

/-- `Math.round(a / b)` for integers with `b > 0`, computed exactly:
`⌊a/b + 1/2⌋ = ⌊(2a+b)/(2b)⌋`. -/
def jsRoundDiv (a b : Int) : Int :=
  Int.fdiv (2 * a + b) (2 * b)

/-! ## ConfigResolver (`getTargetApiUrl`, identical in both variants) -/

/-- `getTargetApiUrl` from the source: the `x-target-api-url` header wins if
truthy, else the stored configuration's `targetApiUrl` if truthy, else the
`TARGET_API_URL` environment variable or the static default; each branch
returns its value with one trailing slash stripped. -/
def getTargetApiUrl (headerUrl storedUrl envUrl : Option String) : String :=
  if strTruthy headerUrl then stripTrailingSlash (headerUrl.getD "")
  else if strTruthy storedUrl then stripTrailingSlash (storedUrl.getD "")
  else stripTrailingSlash (jsOr envUrl "https://api.openai.com")

/-- Modelled from the spec and claim C4's words: the resolved upstream base URL
is the header value if present, otherwise the stored configuration's URL if
set, otherwise the environment default; and in every case the resolved URL has
exactly one trailing slash stripped if one is present. -/
def specResolvedUrl (headerUrl storedUrl envUrl : Option String) : String :=
  stripTrailingSlash
    (if strTruthy headerUrl then headerUrl.getD ""
     else if strTruthy storedUrl then storedUrl.getD ""
     else jsOr envUrl "https://api.openai.com")

/-! ## OperationalStore: configuration (`setConfig`, storage.js 102-134,
identical validation/merge in part_001 138-172) -/

/-- A provided field fails validation when it is truthy and not a string
(this is the literal `data.f && typeof data.f !== 'string'` guard). -/
def badField : Option JVal → Bool
  | none => false
  | some v => v.truthy && !v.isString

/-- The `{...existing, ...data, updatedAt: now}` spread-merge. -/
def mergeConfig (cfg : ConfigRec) (data : ConfigUpdate) (now : String) : ConfigRec :=
  { targetApiUrl := match data.targetApiUrl with
      | some v => some v
      | none => cfg.targetApiUrl
    adminPassword := match data.adminPassword with
      | some v => some v
      | none => cfg.adminPassword
    updatedAt := some now }

/-- `setConfig` from storage.js: validate the two known fields with the
truthy-and-not-string guard, then spread-merge onto the existing record and
stamp `updatedAt`.  `Except.error` carries the 400 response's error string. -/
def setConfig (cfg : ConfigRec) (data : ConfigUpdate) (now : String) :
    Except String ConfigRec :=
  if badField data.targetApiUrl then .error "Invalid targetApiUrl"
  else if badField data.adminPassword then .error "Invalid adminPassword"
  else .ok (mergeConfig cfg data now)

/-! ## OperationalStore: bounded log (`addLog`, storage.js 150-182; the same
push/truncate appears in part_001 202-214 and 608-633) -/

/-- Server-side stamping of a submitted entry: fresh id, server timestamp. -/
def stampLog (e : LogEntry) (newId now : String) : LogEntry :=
  { e with id := newId, timestamp := now }

/-- `logs.push(newLog)` followed by
`if (logs.length > 1000) logs.splice(0, logs.length - 1000)`. -/
def ringPush (logs : List LogEntry) (e : LogEntry) : List LogEntry :=
  let l := logs ++ [e]
  if l.length > 1000 then l.drop (l.length - 1000) else l

/-- `addLog` from storage.js: reject entries whose `endpoint` or `timestamp`
is falsy, otherwise stamp and insert with bounded-ring truncation. -/
def addLog (logs : List LogEntry) (e : LogEntry) (newId now : String) :
    Except String LogEntry × List LogEntry :=
  if e.endpoint = "" ∨ e.timestamp = "" then (.error "Missing required fields", logs)
  else
    let newLog := stampLog e newId now
    (.ok newLog, ringPush logs newLog)

/-- Fold a sequence of `addLog` calls (entry, fresh id, server time) over a
starting log state, keeping only the stored array. -/
def addLogSeq (start : List LogEntry) (ops : List (LogEntry × String × String)) :
    List LogEntry :=
  ops.foldl (fun ls op => (addLog ls op.1 op.2.1 op.2.2).2) start

/-- The entries a sequence of `addLog` calls actually inserts, stamped, in
call order (invalid submissions insert nothing). -/
def stampedValid (ops : List (LogEntry × String × String)) : List LogEntry :=
  ops.filterMap (fun op =>
    if op.1.endpoint = "" ∨ op.1.timestamp = "" then none
    else some (stampLog op.1 op.2.1 op.2.2))

/-! ## OperationalStore: log reads (`getLogs`, storage.js 137-147; limit
parsing from `handleLogs`, storage.js 67-81 / part_001 184-189) -/

/-- `getLogs(limit)`: `logs.slice(-limit)`. -/
def getLogs (logs : List LogEntry) (limit : Int) : List LogEntry :=
  jsSlice logs (-limit)

/-- `parseInt(url.searchParams.get('limit')) || 50` (an absent parameter gives
`parseInt(null) = NaN`, and both `NaN` and `0` fall back to 50). -/
def parseLimit (p : Option String) : Int :=
  match p with
  | none => 50
  | some s =>
    match parseIntJS s with
    | none => 50
    | some n => if n = 0 then 50 else n

/-- The `GET /logs` handler body: parse the limit, then `getLogs`. -/
def handleLogsGet (logs : List LogEntry) (p : Option String) : List LogEntry :=
  getLogs logs (parseLimit p)

/-- Modelled from claim C9's words: the result is the last `limit` retained
entries in original insertion order, where `limit` is the numeric value of the
query parameter and defaults to 50 exactly when the parameter is absent or
non-numeric (here "numeric" is a strict optionally-signed decimal literal). -/
def claimGetLogs (logs : List LogEntry) (p : Option String) : List LogEntry :=
  match p with
  | none => lastN 50 logs
  | some s =>
    match
      (match s.toList with
       | '-' :: ds => if ds ≠ [] ∧ ds.all Char.isDigit then some (-(digitsVal ds : Int)) else none
       | ds => if ds ≠ [] ∧ ds.all Char.isDigit then some ((digitsVal ds : Int)) else none) with
    | none => lastN 50 logs
    | some n => lastN n.toNat logs

/-! ## OperationalStore: statistics and the two backend states -/

/-- `x || null` for a config field: a falsy stored value surfaces as `null`. -/
def jvalOrNull : Option JVal → Option JVal
  | none => none
  | some v => if v.truthy then some v else none

/-- `x || null` for a stored string field. -/
def strOrNull : Option String → Option String
  | none => none
  | some s => if s = "" then none else some s

/-- The statistics record returned by `getStats` (both variants). -/
structure StatsRec where
  totalRequests : Int
  successRate : Int
  avgResponseTime : Int
  currentTarget : Option JVal
  lastUpdated : Option String
deriving Repr, DecidableEq

/-- State owned by the Durable Object: the `config` and `logs` keys. -/
structure StoreState where
  config : ConfigRec := {}
  logs : List LogEntry := []
deriving Repr, DecidableEq

/-- `getStats` of the durable variant (storage.js 193-222): derived on demand
from the full stored log plus the configuration record. -/
def durGetStats (st : StoreState) : StatsRec :=
  let total : Int := st.logs.length
  let succ : Int := (st.logs.filter (fun l => 200 ≤ l.status ∧ l.status < 300)).length
  { totalRequests := total
    successRate := if total > 0 then jsRoundDiv (succ * 100) total else 0
    avgResponseTime :=
      if total > 0 then jsRoundDiv (st.logs.foldl (fun s l => s + l.duration) 0) total else 0
    currentTarget := jvalOrNull st.config.targetApiUrl
    lastUpdated := strOrNull st.config.updatedAt }

/-- State of the in-memory variant (part_001 8-17): besides config and logs it
keeps three independent statistics counters. -/
structure MemState where
  config : ConfigRec := {}
  logs : List LogEntry := []
  statTotal : Int := 0
  statSuccess : Int := 0
  statDuration : Int := 0
deriving Repr, DecidableEq

/-- `handleStats` of the in-memory variant (part_001 236-258): computed from
the separately stored counters, not from the log. -/
def memGetStats (ms : MemState) : StatsRec :=
  { totalRequests := ms.statTotal
    successRate := if ms.statTotal > 0 then jsRoundDiv (ms.statSuccess * 100) ms.statTotal else 0
    avgResponseTime := if ms.statTotal > 0 then jsRoundDiv ms.statDuration ms.statTotal else 0
    currentTarget := jvalOrNull ms.config.targetApiUrl
    lastUpdated := strOrNull ms.config.updatedAt }

/-- `logRequest` of the in-memory variant (part_001 608-633): stamp and
ring-push the entry (no validation), then bump the three counters.  The whole
body is wrapped in try/catch, so it never throws. -/
def memLogRequest (ms : MemState) (e : LogEntry) (newId now : String) : MemState :=
  { ms with
    logs := ringPush ms.logs (stampLog e newId now)
    statTotal := ms.statTotal + 1
    statSuccess := ms.statSuccess + (if 200 ≤ e.status ∧ e.status < 300 then 1 else 0)
    statDuration := ms.statDuration + e.duration }

/-! ## HTTP-observable values -/

/-- An upstream (target API) response as seen by `forwardRequest`. -/
structure UpstreamResp where
  status : Int := 200
  statusText : String := ""
  body : String := ""
  headers : List (String × String) := []
deriving Repr, DecidableEq

/-- Response bodies, as the structured values the code JSON-stringifies (an
injective rendering, so equality of bodies is equality of observables). -/
inductive Body
  | empty
  | text (s : String)
  | jerror (msg : String)
  | jerrorMsg (err msg : String)
  | jmsg (msg : String)
  | jmsgStatus (msg : String) (status : Int)
  | jerrStatus (err : String) (status : Int) (statusText : String)
  | jhealth
  | jconfig (c : ConfigRec)
  | jlog (e : LogEntry)
  | jlogs (l : List LogEntry)
  | jstats (s : StatsRec)
  | upstreamBody (s : String)
  | html (s : String)
deriving Repr, DecidableEq

/-- A response produced by the worker. -/
structure ProxyResponse where
  status : Int := 200
  statusText : String := ""
  body : Body := .empty
  headers : List (String × String) := []
deriving Repr, DecidableEq

/-- `headers.set(k, v)`: overwrite in place or append. -/
def hset (hs : List (String × String)) (k v : String) : List (String × String) :=
  if hs.any (fun p => p.1 = k) then hs.map (fun p => if p.1 = k then (k, v) else p)
  else hs ++ [(k, v)]

/-- `headers.get(k)`. -/
def hget (hs : List (String × String)) (k : String) : Option String :=
  (hs.find? (fun p => p.1 = k)).map (fun p => p.2)

/-- The `Content-Type: application/json` header every JSON response carries. -/
def ctJson : String × String := ("Content-Type", "application/json")

/-! ## ForwardingEngine (`forwardRequest`, index.js 451-534 = part_001
522-605) -/

/-- `forwardRequest`: the entire body is inside a try/catch.  The oracle
`outcome` stands for constructing and issuing the outbound call: `.ok r` means
the upstream answered `r` (after the outbound headers were prepared), `.error
e` means some exception with message `e` was thrown while constructing or
issuing it.  A non-ok upstream response only triggers a best-effort diagnostic
parse of the error body (console logging, no observable effect), then the
upstream status/body/headers are relayed with the two security/CORS headers
overwritten; an exception is converted to a 502 JSON error response, so the
function is total and never propagates a fault. -/
def forwardRequest (outcome : Except String UpstreamResp) : ProxyResponse :=
  match outcome with
  | .ok r =>
    { status := r.status
      statusText := r.statusText
      body := .upstreamBody r.body
      headers := hset (hset r.headers "Access-Control-Allow-Origin" "*")
        "X-Content-Type-Options" "nosniff" }
  | .error e =>
    { status := 502
      body := .jerrorMsg "Failed to forward request" e
      headers := [ctJson] }

/-! ## LLM endpoint handlers (index.js 284-419 / part_001 366-501) -/

/-- Oracles for one request: nondeterministic inputs the code reads from the
runtime (fresh log id, wall-clock readings, the upstream call's outcome, the
admin console document, the probe outcome, whether the logging backend works,
and a possible runtime fault inside an endpoint handler's try block). -/
structure Oracles where
  newId : String := "id0"
  now : String := "now0"
  adminHtml : String := "<html></html>"
  probe : Except String Int := .ok 200
  upstream : Except String UpstreamResp := .error "unreachable"
  exn : Option String := none
  backendOk : Bool := true
  startT : Nat := 0
  endT : Nat := 0
deriving Repr

/-- `logRequest` of the durable variant (index.js 537-552): POST the entry to
the Durable Object's `/logs` (which validates, stamps and ring-inserts); any
failure of that call is caught and swallowed, leaving the logs unchanged and
returning normally either way. -/
def logRequest (backendOk : Bool) (logs : List LogEntry) (e : LogEntry)
    (newId now : String) : List LogEntry :=
  if backendOk then (addLog logs e newId now).2 else logs

/-- Result of invoking one LLM endpoint handler: the computed response
(`Except.error` = the handler rethrows to the top-level dispatcher), the log
store afterwards, how many `logRequest` calls were made, and the entries those
calls carried. -/
structure InvokeResult where
  response : Except String ProxyResponse
  logs : List LogEntry
  appendCalls : Nat
  logged : List LogEntry
deriving Repr

/-- Common body of `handleChatCompletion` / `handleCompletions` /
`handleEmbeddings` (they are textually identical up to the endpoint name):
resolve the target URL, forward, log exactly once with the response status (or
log with status 500 in the catch block, re-resolving the target, and rethrow).
`forwardRequest` and `getTargetApiUrl` are total, so the catch path is only
reachable through a runtime fault, modelled by the oracle `exn`. -/
def handleLLMEndpoint (endpoint : String) (headerUrl storedUrl envUrl : Option String)
    (o : Oracles) (logs : List LogEntry) : InvokeResult :=
  let targetApiUrl := getTargetApiUrl headerUrl storedUrl envUrl
  let duration : Int := (o.endT - o.startT : Nat)
  match o.exn with
  | none =>
    let resp := forwardRequest o.upstream
    let entry : LogEntry :=
      { endpoint := endpoint, targetApi := targetApiUrl, status := resp.status,
        duration := duration, timestamp := o.now }
    { response := .ok resp
      logs := logRequest o.backendOk logs entry o.newId o.now
      appendCalls := 1
      logged := [entry] }
  | some e =>
    let entry : LogEntry :=
      { endpoint := endpoint, targetApi := getTargetApiUrl headerUrl storedUrl envUrl,
        status := 500, duration := duration, timestamp := o.now, error := some e }
    { response := .error e
      logs := logRequest o.backendOk logs entry o.newId o.now
      appendCalls := 1
      logged := [entry] }

/-- `handleChatCompletion` (index.js 284-327). -/
def handleChatCompletion (headerUrl storedUrl envUrl : Option String) (o : Oracles)
    (logs : List LogEntry) : InvokeResult :=
  handleLLMEndpoint "/v1/chat/completions" headerUrl storedUrl envUrl o logs

/-- `handleCompletions` (index.js 330-373). -/
def handleCompletions (headerUrl storedUrl envUrl : Option String) (o : Oracles)
    (logs : List LogEntry) : InvokeResult :=
  handleLLMEndpoint "/v1/completions" headerUrl storedUrl envUrl o logs

/-- `handleEmbeddings` (index.js 376-419). -/
def handleEmbeddings (headerUrl storedUrl envUrl : Option String) (o : Oracles)
    (logs : List LogEntry) : InvokeResult :=
  handleLLMEndpoint "/v1/embeddings" headerUrl storedUrl envUrl o logs

/-! ## Authentication and CORS -/

/-- `verifyAdminAuth` of the durable variant (index.js 252-268): require a
truthy Authorization header, strip the first `"Bearer "`, require a truthy
token, and accept it iff it equals `env.ADMIN_PASSWORD` or the static demo
token `'admin-token'`. -/
def verifyAdminAuth (authHeader : Option String) (adminPassword : Option String) : Bool :=
  match authHeader with
  | none => false
  | some h =>
    if h = "" then false
    else
      let token := replaceFirst h "Bearer " ""
      if token = "" then false
      else (some token = adminPassword) ∨ token = "admin-token"

/-- `verifyAdminAuth` of the in-memory variant (part_001 347-350): always
approves, bypassing the password check entirely. -/
def memVerifyAdminAuth (_authHeader : Option String) (_adminPassword : Option String) : Bool :=
  true

/-- `handleOptions` of the worker (index.js 271-281): CORS preflight with
wildcard origin, the fixed methods list, echoed-or-wildcard headers and a
max-age. -/
def handleOptions (acrHeaders : Option String) : ProxyResponse :=
  { status := 200
    body := .empty
    headers :=
      [("Access-Control-Allow-Origin", "*"),
       ("Access-Control-Allow-Methods", "GET, POST, PUT, DELETE, OPTIONS"),
       ("Access-Control-Allow-Headers", jsOr acrHeaders "*"),
       ("Access-Control-Max-Age", "86400")] }

/-- `handleOptions` of the Durable Object (storage.js 42-51): same, without
the max-age. -/
def doHandleOptions (acrHeaders : Option String) : ProxyResponse :=
  { status := 200
    body := .empty
    headers :=
      [("Access-Control-Allow-Origin", "*"),
       ("Access-Control-Allow-Methods", "GET, POST, PUT, DELETE, OPTIONS"),
       ("Access-Control-Allow-Headers", jsOr acrHeaders "*")] }

/-! ## Requests and the Durable Object dispatcher -/

/-- An inbound HTTP request, with the pieces of it the worker reads: method,
path, the recognized headers, the `limit` query parameter, and the parsed JSON
body in the shape the respective handler expects (`none` models an absent
field or an unreadable body where the code treats those alike). -/
structure ReqModel where
  https : Bool := true
  method : String := "GET"
  pathname : String := "/"
  authorization : Option String := none
  acrHeaders : Option String := none
  xTargetApiUrl : Option String := none
  limitParam : Option String := none
  jsonConfig : Option ConfigUpdate := none
  jsonLog : Option LogEntry := none
  jsonTestUrl : Option String := none
deriving Repr

/-- Worker environment bindings. -/
structure Env where
  production : Bool := false
  adminPassword : Option String := none
  targetApiUrl : Option String := none
  targetApiKey : Option String := none
deriving Repr

/-- `LLMProxyStorage.fetch` (storage.js 11-39): OPTIONS preflight first, then
prefix dispatch on `/config`, `/logs`, `/stats`; a `request.json()` failure in
a POST handler escapes to the surrounding catch and yields the 500 response. -/
def doFetch (st : StoreState) (req : ReqModel) (newId now : String) :
    ProxyResponse × StoreState :=
  if req.method = "OPTIONS" then (doHandleOptions req.acrHeaders, st)
  else if litStartsWith req.pathname "/config" then
    if req.method = "GET" then
      ({ status := 200, body := .jconfig st.config, headers := [ctJson] }, st)
    else if req.method = "POST" then
      match req.jsonConfig with
      | some data =>
        match setConfig st.config data now with
        | .ok c => ({ status := 200, body := .jconfig c, headers := [ctJson] },
            { st with config := c })
        | .error m => ({ status := 400, body := .jerror m, headers := [ctJson] }, st)
      | none => ({ status := 500, body := .jerror "Internal server error", headers := [ctJson] }, st)
    else ({ status := 405, body := .text "Method not allowed" }, st)
  else if litStartsWith req.pathname "/logs" then
    if req.method = "GET" then
      ({ status := 200, body := .jlogs (handleLogsGet st.logs req.limitParam), headers := [ctJson] }, st)
    else if req.method = "POST" then
      match req.jsonLog with
      | some e =>
        match addLog st.logs e newId now with
        | (.ok newLog, logs) => ({ status := 200, body := .jlog newLog, headers := [ctJson] }, { st with logs := logs })
        | (.error m, _) => ({ status := 400, body := .jerror m, headers := [ctJson] }, st)
      | none => ({ status := 500, body := .jerror "Internal server error", headers := [ctJson] }, st)
    else if req.method = "DELETE" then
      ({ status := 200, body := .jmsg "Logs cleared", headers := [ctJson] }, { st with logs := [] })
    else ({ status := 405, body := .text "Method not allowed" }, st)
  else if litStartsWith req.pathname "/stats" then
    if req.method = "GET" then
      ({ status := 200, body := .jstats (durGetStats st), headers := [ctJson] }, st)
    else ({ status := 405, body := .text "Method not allowed" }, st)
  else ({ status := 404, body := .text "Not found" }, st)

/-! ## AdminAPI (durable variant) -/

/-- `handleTestConnection` (index.js 196-249): require a truthy
`targetApiUrl`, issue one probe GET to `<url>/v1/models` (the oracle gives its
status, or the thrown error's message); 401/403/404 or any status ≥ 200 counts
as success, other statuses and exceptions yield a 502-class failure.  Returns
the response and the number of probe calls actually issued. -/
def handleTestConnection (urlField : Option String) (probe : Except String Int) :
    ProxyResponse × Nat :=
  if ¬ strTruthy urlField then
    ({ status := 400, body := .jerror "Missing targetApiUrl", headers := [ctJson] }, 0)
  else
    match probe with
    | .ok s =>
      if s = 401 ∨ s = 403 ∨ s = 404 ∨ s ≥ 200 then
        ({ status := 200, body := .jmsgStatus "Connection successful" s, headers := [ctJson] }, 1)
      else
        ({ status := 502, body := .jerrStatus "Connection failed" s "", headers := [ctJson] }, 1)
    | .error e =>
      ({ status := 502, body := .jerrorMsg "Connection failed" e, headers := [ctJson] }, 1)

/-- Result of a full top-level dispatch: the response, the store afterwards,
and how many upstream probe calls `test-connection` issued. -/
structure RouterResult where
  resp : ProxyResponse
  store : StoreState
  probeCalls : Nat := 0
deriving Repr, DecidableEq

/-- `handleAdminApi` (index.js 172-193): strip the first `"/admin"`, serve
`test-connection` directly, and forward everything else to the Durable Object
with the path rewritten to `/api/storage<sub>` (the Durable Object dispatcher
sees that full rewritten path). -/
def handleAdminApi (st : StoreState) (req : ReqModel) (newId now : String)
    (probe : Except String Int) : RouterResult :=
  let p := replaceFirst req.pathname "/admin" ""
  if p = "/test-connection" ∧ req.method = "POST" then
    let r := handleTestConnection req.jsonTestUrl probe
    { resp := r.1, store := st, probeCalls := r.2 }
  else
    let r := doFetch st { req with pathname := "/api/storage" ++ p } newId now
    { resp := r.1, store := r.2, probeCalls := 0 }

/-- `serveAdminInterface` (index.js 123-134): the console document with the
strict content-security headers; note it carries no CORS headers. -/
def adminInterfaceResponse (adminHtml : String) : ProxyResponse :=
  { status := 200
    body := .html adminHtml
    headers :=
      [("Content-Type", "text/html; charset=utf-8"),
       ("X-Content-Type-Options", "nosniff"),
       ("X-Frame-Options", "DENY"),
       ("Content-Security-Policy",
        "default-src \x27self\x27; script-src \x27self\x27 \x27unsafe-inline\x27; style-src \x27self\x27 \x27unsafe-inline\x27;")] }

/-- Extract the stored `targetApiUrl` as the string `getTargetApiUrl` can use:
only a stored string participates (a truthy non-string throws inside the
try/catch around the config read and falls through to the environment URL; a
falsy value fails the truthiness test). -/
def storedUrlString (c : ConfigRec) : Option String :=
  match c.targetApiUrl with
  | some (.jstr s) => some s
  | _ => none

/-- Top-level `fetch` of the durable variant (index.js 12-103), as one
dispatch function: HTTPS enforcement, `/api/storage` pass-through (prefix
stripped, no authentication), the admin console, authenticated admin API
routes, CORS preflight, method gate, health check / GET 404, and the three
LLM endpoints (whose handler faults become the 500 catch-all response). -/
def routerFetch (env : Env) (st : StoreState) (req : ReqModel) (o : Oracles) :
    RouterResult :=
  if env.production ∧ req.https = false then
    { resp := { status := 403, body := .text "Please use HTTPS" }, store := st }
  else if litStartsWith req.pathname "/api/storage" then
    let r := doFetch st { req with pathname := replaceFirst req.pathname "/api/storage" "" }
      o.newId o.now
    { resp := r.1, store := r.2 }
  else if req.pathname = "/admin" ∨ req.pathname = "/admin/" then
    { resp := adminInterfaceResponse o.adminHtml, store := st }
  else if litStartsWith req.pathname "/admin/" then
    if ¬ verifyAdminAuth req.authorization env.adminPassword then
      { resp := { status := 401, body := .jerror "Unauthorized", headers := [ctJson] },
        store := st }
    else handleAdminApi st req o.newId o.now o.probe
  else if req.method = "OPTIONS" then
    { resp := handleOptions req.acrHeaders, store := st }
  else if req.method ≠ "POST" ∧ req.method ≠ "GET" then
    { resp := { status := 405, body := .jerror "Method not allowed", headers := [ctJson] },
      store := st }
  else if req.method = "GET" then
    if req.pathname = "/" ∨ req.pathname = "/health" then
      { resp := { status := 200, body := .jhealth, headers := [ctJson] }, store := st }
    else
      { resp := { status := 404, body := .jerror "Not found", headers := [ctJson] },
        store := st }
  else
    let dispatch := fun (endpoint : String) =>
      let hr := handleLLMEndpoint endpoint req.xTargetApiUrl (storedUrlString st.config)
        env.targetApiUrl o st.logs
      let resp : ProxyResponse := match hr.response with
        | .ok r => r
        | .error e => { status := 500, body := .jerrorMsg "Internal server error" e, headers := [ctJson] }
      ({ resp := resp, store := { st with logs := hr.logs } } : RouterResult)
    if req.pathname = "/v1/chat/completions" then dispatch "/v1/chat/completions"
    else if req.pathname = "/v1/completions" then dispatch "/v1/completions"
    else if req.pathname = "/v1/embeddings" then dispatch "/v1/embeddings"
    else { resp := { status := 404, body := .jerror "Endpoint not found", headers := [ctJson] }, store := st }

/-! ## Store-operation traces for the backend-equivalence claim -/

/-- One admin store operation, with the server-side nondeterminism (fresh id,
server timestamp) attached to the mutating ones. -/
inductive StoreOp
  | setConfigOp (data : ConfigUpdate) (now : String)
  | appendLog (e : LogEntry) (newId now : String)
  | getLogsOp (limitParam : Option String)
  | clearLogs
  | getStats
deriving Repr, DecidableEq

/-- The durable backend's handling of one store operation (storage.js
handleConfig / handleLogs / handleStats). -/
def durStep (st : StoreState) : StoreOp → ProxyResponse × StoreState
  | .setConfigOp data now =>
    match setConfig st.config data now with
    | .ok c => ({ status := 200, body := .jconfig c, headers := [ctJson] },
        { st with config := c })
    | .error m => ({ status := 400, body := .jerror m, headers := [ctJson] }, st)
  | .appendLog e newId now =>
    match addLog st.logs e newId now with
    | (.ok newLog, logs) => ({ status := 200, body := .jlog newLog, headers := [ctJson] },
        { st with logs := logs })
    | (.error m, _) => ({ status := 400, body := .jerror m, headers := [ctJson] }, st)
  | .getLogsOp p =>
    ({ status := 200, body := .jlogs (handleLogsGet st.logs p), headers := [ctJson] }, st)
  | .clearLogs =>
    ({ status := 200, body := .jmsg "Logs cleared", headers := [ctJson] },
      { st with logs := [] })
  | .getStats =>
    ({ status := 200, body := .jstats (durGetStats st), headers := [ctJson] }, st)

/-- The in-memory backend's handling of the same operations (part_001
handleConfig / handleLogs / handleStats): identical for config and logs, but
`getStats` reads the counters, and neither `appendLog` nor `clearLogs`
touches them. -/
def memStep (ms : MemState) : StoreOp → ProxyResponse × MemState
  | .setConfigOp data now =>
    match setConfig ms.config data now with
    | .ok c => ({ status := 200, body := .jconfig c, headers := [ctJson] },
        { ms with config := c })
    | .error m => ({ status := 400, body := .jerror m, headers := [ctJson] }, ms)
  | .appendLog e newId now =>
    match addLog ms.logs e newId now with
    | (.ok newLog, logs) => ({ status := 200, body := .jlog newLog, headers := [ctJson] },
        { ms with logs := logs })
    | (.error m, _) => ({ status := 400, body := .jerror m, headers := [ctJson] }, ms)
  | .getLogsOp p =>
    ({ status := 200, body := .jlogs (handleLogsGet ms.logs p), headers := [ctJson] }, ms)
  | .clearLogs =>
    ({ status := 200, body := .jmsg "Logs cleared", headers := [ctJson] },
      { ms with logs := [] })
  | .getStats =>
    ({ status := 200, body := .jstats (memGetStats ms), headers := [ctJson] }, ms)

/-- Run a trace of store operations on the durable backend, collecting the
responses (the observable results). -/
def durRun (st : StoreState) (ops : List StoreOp) : List ProxyResponse × StoreState :=
  ops.foldl (fun acc op =>
    let r := durStep acc.2 op
    (acc.1 ++ [r.1], r.2)) ([], st)

/-- Run a trace of store operations on the in-memory backend. -/
def memRun (ms : MemState) (ops : List StoreOp) : List ProxyResponse × MemState :=
  ops.foldl (fun acc op =>
    let r := memStep acc.2 op
    (acc.1 ++ [r.1], r.2)) ([], ms)

/-! # Theorems -/

/-- C4: for every inbound LLM request the resolved upstream base URL follows
the header / stored-config / static-default precedence, and in every case the
resolved URL has exactly one trailing slash stripped if one was present. -/
theorem C4_url_resolution :
    (∀ headerUrl storedUrl envUrl : Option String,
      getTargetApiUrl headerUrl storedUrl envUrl
        = specResolvedUrl headerUrl storedUrl envUrl)
    ∧ stripTrailingSlash "https://api.openai.com/" = "https://api.openai.com"
    ∧ stripTrailingSlash "https://a.example//" = "https://a.example/"
    ∧ stripTrailingSlash "https://a.example" = "https://a.example" := by
  refine ⟨fun headerUrl storedUrl envUrl => ?_, by decide, by decide, by decide⟩
  unfold getTargetApiUrl specResolvedUrl
  by_cases h1 : strTruthy headerUrl = true
  · simp [h1]
  · by_cases h2 : strTruthy storedUrl = true <;> simp [h1, h2]


/-- One ring insertion is exactly "keep the last 1000" of the appended list. -/
theorem ringPush_eq_lastN (logs : List LogEntry) (e : LogEntry) :
    ringPush logs e = lastN 1000 (logs ++ [e]) := by
  unfold ringPush lastN
  by_cases h : (logs ++ [e]).length > 1000
  · rw [if_pos h]
  · rw [if_neg h, Nat.sub_eq_zero_of_le (by omega), List.drop_zero]

/-- Taking the last `n` is idempotent across later appends. -/
theorem lastN_lastN_append (n : Nat) (xs ys : List LogEntry) :
    lastN n (lastN n xs ++ ys) = lastN n (xs ++ ys) := by
  unfold lastN
  rw [← @List.drop_append_of_le_length _ xs ys _ (Nat.sub_le xs.length n), List.drop_drop]
  congr 1
  simp only [List.length_drop, List.length_append]
  omega

/-- The log after any `addLog` sequence is the last 1000 of the starting log
followed by the stamped valid submissions, in order. -/
theorem addLogSeq_eq_lastN (ops : List (LogEntry × String × String)) :
    ∀ start : List LogEntry, start.length ≤ 1000 →
      addLogSeq start ops = lastN 1000 (start ++ stampedValid ops) := by
  induction ops with
  | nil =>
    intro start h
    unfold addLogSeq stampedValid lastN
    simp [Nat.sub_eq_zero_of_le h]
  | cons op ops ih =>
    intro start h
    by_cases hv : op.1.endpoint = "" ∨ op.1.timestamp = ""
    · have hstep : (addLog start op.1 op.2.1 op.2.2).2 = start := by
        unfold addLog; rw [if_pos hv]
      have hsv : stampedValid (op :: ops) = stampedValid ops := by
        unfold stampedValid; rw [List.filterMap_cons, if_pos hv]
      calc addLogSeq start (op :: ops)
          = addLogSeq start ops := by
            unfold addLogSeq; rw [List.foldl_cons, hstep]
        _ = lastN 1000 (start ++ stampedValid ops) := ih start h
        _ = lastN 1000 (start ++ stampedValid (op :: ops)) := by rw [hsv]
    · have hstep : (addLog start op.1 op.2.1 op.2.2).2
          = ringPush start (stampLog op.1 op.2.1 op.2.2) := by
        unfold addLog; rw [if_neg hv]
      have hsv : stampedValid (op :: ops)
          = stampLog op.1 op.2.1 op.2.2 :: stampedValid ops := by
        unfold stampedValid; rw [List.filterMap_cons, if_neg hv]
      have hlen : (ringPush start (stampLog op.1 op.2.1 op.2.2)).length ≤ 1000 := by
        rw [ringPush_eq_lastN]; unfold lastN; rw [List.length_drop]; omega
      calc addLogSeq start (op :: ops)
          = addLogSeq (ringPush start (stampLog op.1 op.2.1 op.2.2)) ops := by
            unfold addLogSeq; rw [List.foldl_cons, hstep]
        _ = lastN 1000 (ringPush start (stampLog op.1 op.2.1 op.2.2) ++ stampedValid ops) :=
            ih _ hlen
        _ = lastN 1000 (lastN 1000 (start ++ [stampLog op.1 op.2.1 op.2.2])
              ++ stampedValid ops) := by rw [ringPush_eq_lastN]
        _ = lastN 1000 ((start ++ [stampLog op.1 op.2.1 op.2.2]) ++ stampedValid ops) :=
            lastN_lastN_append _ _ _
        _ = lastN 1000 (start ++ stampedValid (op :: ops)) := by
            rw [hsv, List.append_assoc, List.singleton_append]

/-- C3: for every sequence of `appendLog` calls starting from any log state of
length at most 1000, the stored log never exceeds 1000 entries, and the
retained entries are exactly the most recent 1000 insertions (starting state
followed by the stamped valid submissions) in original relative order —
oldest evicted first, never reordered. -/
theorem C3_bounded_ring (start : List LogEntry) (ops : List (LogEntry × String × String))
    (h : start.length ≤ 1000) :
    (addLogSeq start ops).length ≤ 1000 ∧
      addLogSeq start ops = lastN 1000 (start ++ stampedValid ops) := by
  have he := addLogSeq_eq_lastN ops start h
  refine ⟨?_, he⟩
  rw [he]
  unfold lastN
  rw [List.length_drop]
  omega

/-- C3 witness: the theorem applied to the empty starting log and a two-call
sequence (one valid, one invalid). -/
theorem C3_bounded_ring_witness :
    (addLogSeq []
        [({ endpoint := "/v1/completions", timestamp := "t" }, "i1", "t1"),
         ({ endpoint := "", timestamp := "t" }, "i2", "t2")]).length ≤ 1000 ∧
      addLogSeq []
          [({ endpoint := "/v1/completions", timestamp := "t" }, "i1", "t1"),
           ({ endpoint := "", timestamp := "t" }, "i2", "t2")]
        = lastN 1000 ([] ++ stampedValid
            [({ endpoint := "/v1/completions", timestamp := "t" }, "i1", "t1"),
             ({ endpoint := "", timestamp := "t" }, "i2", "t2")]) :=
  C3_bounded_ring [] _ (by decide)

/-- C8 counterexample: the update provides `targetApiUrl` with the non-string
value `0`, yet `setConfig` does not fail — the truthiness guard short-circuits
on falsy values, so the non-string is merged and `updatedAt` stamped, refuting
"fails whenever a provided URL or credential field is not string-typed". -/
theorem C8_counterexample :
    JVal.isString (.jnum 0) = false ∧
      setConfig {} { targetApiUrl := some (.jnum 0) } "t0"
        = .ok { targetApiUrl := some (.jnum 0), adminPassword := none, updatedAt := some "t0" } := by
  constructor
  · rfl
  · rfl

/-- C8 amended: `setConfig` fails with the 400-class validation error exactly
when a provided URL or credential field is truthy and not string-typed (falsy
non-strings slip through and are merged); otherwise it spread-merges the
provided fields onto the existing record — fields absent from the update keep
their previous values — and stamps `updatedAt`; the store state is untouched
on a validation failure; and two updates touching disjoint fields compose to a
record containing both. -/
theorem C8_setConfig_merge :
    (∀ (cfg : ConfigRec) (data : ConfigUpdate) (now : String),
      (badField data.targetApiUrl = false → badField data.adminPassword = false →
        setConfig cfg data now = .ok (mergeConfig cfg data now))
      ∧ (badField data.targetApiUrl = true ∨ badField data.adminPassword = true →
          ∃ m, setConfig cfg data now = .error m)
      ∧ (∀ st : StoreState, st.config = cfg →
          (badField data.targetApiUrl = true ∨ badField data.adminPassword = true) →
          (durStep st (.setConfigOp data now)).2 = st)
      ∧ (data.targetApiUrl = none → (mergeConfig cfg data now).targetApiUrl = cfg.targetApiUrl)
      ∧ (data.adminPassword = none → (mergeConfig cfg data now).adminPassword = cfg.adminPassword)
      ∧ (mergeConfig cfg data now).updatedAt = some now)
    ∧ (∀ (cfg : ConfigRec) (u p : JVal) (now1 now2 : String) (c1 c2 : ConfigRec),
        setConfig cfg { targetApiUrl := some u } now1 = .ok c1 →
        setConfig c1 { adminPassword := some p } now2 = .ok c2 →
        c2.targetApiUrl = some u ∧ c2.adminPassword = some p ∧ c2.updatedAt = some now2) := by
  constructor
  · intro cfg data now
    refine ⟨fun h1 h2 => ?_, fun h => ?_, fun st hst h => ?_, fun h => ?_, fun h => ?_, rfl⟩
    · unfold setConfig
      rw [if_neg (by simp [h1]), if_neg (by simp [h2])]
    · unfold setConfig
      rcases h with h | h
      · exact ⟨"Invalid targetApiUrl", by rw [if_pos h]⟩
      · by_cases h1 : badField data.targetApiUrl = true
        · exact ⟨"Invalid targetApiUrl", by rw [if_pos h1]⟩
        · exact ⟨"Invalid adminPassword",
            by rw [if_neg (by simp [h1]), if_pos h]⟩
    · have : ∃ m, setConfig st.config data now = .error m := by
        unfold setConfig
        rcases h with h | h
        · rw [hst]; exact ⟨"Invalid targetApiUrl", by rw [if_pos h]⟩
        · by_cases h1 : badField data.targetApiUrl = true
          · rw [hst]; exact ⟨"Invalid targetApiUrl", by rw [if_pos h1]⟩
          · rw [hst]; exact ⟨"Invalid adminPassword",
              by rw [if_neg (by simp [h1]), if_pos h]⟩
      rcases this with ⟨m, hm⟩
      simp only [durStep, hm]
    · unfold mergeConfig; rw [h]
    · unfold mergeConfig; rw [h]
  · intro cfg u p now1 now2 c1 c2 h1 h2
    unfold setConfig at h1 h2
    split_ifs at h1 h2
    cases h1; cases h2; exact ⟨rfl, rfl, rfl⟩

/-- C8 witness: the amended theorem applied to a concrete pair of disjoint
updates and to a concrete bad update. -/
theorem C8_setConfig_merge_witness :
    (setConfig {} { targetApiUrl := some (.jstr "https://u.example") } "t1"
      = .ok (mergeConfig {} { targetApiUrl := some (.jstr "https://u.example") } "t1"))
    ∧ (∃ m, setConfig {} { adminPassword := some (.jbool true) } "t2" = .error m)
    ∧ ({ targetApiUrl := some (.jstr "https://u.example"), adminPassword := some (.jstr "pw"),
          updatedAt := some "t3" } : ConfigRec).targetApiUrl = some (.jstr "https://u.example") := by
  refine ⟨((C8_setConfig_merge.1 {} { targetApiUrl := some (.jstr "https://u.example") } "t1").1
      rfl rfl), ?_, rfl⟩
  exact (C8_setConfig_merge.1 {} { adminPassword := some (.jbool true) } "t2").2.1 (.inr rfl)

/-- `slice(-m)` with positive `m` keeps the last `m` elements in order. -/
theorem jsSlice_neg (l : List LogEntry) (m : Int) (hm : 0 < m) :
    jsSlice l (-m) = lastN m.toNat l := by
  unfold jsSlice lastN
  rw [if_pos (by omega)]
  congr 1
  omega

/-- `slice(k)` with nonnegative `k` drops the first `k` elements. -/
theorem jsSlice_nonneg (l : List LogEntry) (k : Int) (hk : 0 ≤ k) :
    jsSlice l k = l.drop k.toNat := by
  unfold jsSlice
  rw [if_neg (by omega)]
  by_cases hlen : k ≤ (l.length : Int)
  · congr 1
    omega
  · rw [show (min k (l.length : Int)).toNat = l.length by omega, List.drop_length,
      eq_comm, List.drop_eq_nil_iff]
    omega

/-- C9 counterexample: with the query parameter `"0"` — a numeric value — the
code returns the last 50 entries (here: both stored entries), while the claim
("limit is the numeric value; the default 50 applies exactly when the
parameter is absent or non-numeric") demands the last 0 entries, i.e. none. -/
theorem C9_counterexample :
    handleLogsGet
        [{ endpoint := "a", timestamp := "t" }, { endpoint := "b", timestamp := "t" }]
        (some "0")
      = [{ endpoint := "a", timestamp := "t" }, { endpoint := "b", timestamp := "t" }]
    ∧ claimGetLogs
        [{ endpoint := "a", timestamp := "t" }, { endpoint := "b", timestamp := "t" }]
        (some "0")
      = []
    ∧ handleLogsGet
        [{ endpoint := "a", timestamp := "t" }, { endpoint := "b", timestamp := "t" }]
        (some "0")
      ≠ claimGetLogs
        [{ endpoint := "a", timestamp := "t" }, { endpoint := "b", timestamp := "t" }]
        (some "0") := by
  refine ⟨by decide, by decide, by decide⟩

/-- C9 amended: the result of a `getLogs` read is the last `limit` retained
entries in original insertion order, where `limit` is the value `parseInt`
extracts from the query parameter when that value is positive; the default of
50 applies when the parameter is absent, unparsable, or parses to `0` (so a
numeric `limit=0` still returns 50 entries); a negative parsed limit instead
drops that many entries from the front. -/
theorem C9_getLogs_window :
    (∀ logs : List LogEntry, handleLogsGet logs none = lastN 50 logs)
    ∧ (∀ (logs : List LogEntry) (s : String), parseIntJS s = none →
        handleLogsGet logs (some s) = lastN 50 logs)
    ∧ (∀ (logs : List LogEntry) (s : String), parseIntJS s = some 0 →
        handleLogsGet logs (some s) = lastN 50 logs)
    ∧ (∀ (logs : List LogEntry) (s : String) (n : Int), parseIntJS s = some n → 0 < n →
        handleLogsGet logs (some s) = lastN n.toNat logs)
    ∧ (∀ (logs : List LogEntry) (s : String) (n : Int), parseIntJS s = some n → n < 0 →
        handleLogsGet logs (some s) = logs.drop n.natAbs) := by
  refine ⟨fun logs => ?_, fun logs s h => ?_, fun logs s h => ?_,
    fun logs s n h hn => ?_, fun logs s n h hn => ?_⟩
  · simp only [handleLogsGet, getLogs, parseLimit]
    exact jsSlice_neg logs 50 (by omega)
  · simp only [handleLogsGet, getLogs, parseLimit, h]
    exact jsSlice_neg logs 50 (by omega)
  · simp only [handleLogsGet, getLogs, parseLimit, h, if_true]
    exact jsSlice_neg logs 50 (by omega)
  · have hne : ¬ n = 0 := by omega
    simp only [handleLogsGet, getLogs, parseLimit, h]
    rw [if_neg hne]
    exact jsSlice_neg logs n hn
  · have hne : ¬ n = 0 := by omega
    simp only [handleLogsGet, getLogs, parseLimit, h]
    rw [if_neg hne, jsSlice_nonneg logs (-n) (by omega)]
    congr 1
    omega

/-- C9 witness: the amended theorem applied to a three-entry log and the
parameter `"2"`. -/
theorem C9_getLogs_window_witness :
    handleLogsGet
        [{ endpoint := "a", timestamp := "t" }, { endpoint := "b", timestamp := "t" },
         { endpoint := "c", timestamp := "t" }]
        (some "2")
      = lastN (2 : Int).toNat
          [{ endpoint := "a", timestamp := "t" }, { endpoint := "b", timestamp := "t" },
           { endpoint := "c", timestamp := "t" }] :=
  C9_getLogs_window.2.2.2.1 _ "2" 2 (by decide) (by decide)

/-- C5 counterexample: the identical two-operation trace `appendLog e;
getStats` yields different observable results on the two backends — the
durable variant derives `totalRequests = 1` from the stored log, while the
in-memory variant reads its independent counters and reports `totalRequests =
0` (admin `appendLog` never updates them). -/
theorem C5_counterexample :
    (durRun {}
        [.appendLog { endpoint := "e", timestamp := "t", status := 200, duration := 10 } "i1" "t1",
         .getStats]).1
      ≠ (memRun {}
          [.appendLog { endpoint := "e", timestamp := "t", status := 200, duration := 10 } "i1" "t1",
           .getStats]).1
    ∧ (durRun {}
        [.appendLog { endpoint := "e", timestamp := "t", status := 200, duration := 10 } "i1" "t1",
         .getStats]).1.getLast?
      = some { status := 200, body := .jstats { totalRequests := 1, successRate := 100, avgResponseTime := 10, currentTarget := none, lastUpdated := none }, headers := [ctJson] }
    ∧ (memRun {}
        [.appendLog { endpoint := "e", timestamp := "t", status := 200, duration := 10 } "i1" "t1",
         .getStats]).1.getLast?
      = some { status := 200, body := .jstats { totalRequests := 0, successRate := 0, avgResponseTime := 0, currentTarget := none, lastUpdated := none }, headers := [ctJson] } := by
  refine ⟨by decide, by decide, by decide⟩

/-- C5 amended: only the durable variant computes `getStats` as a pure
derivation from the full stored log plus the configuration record (so after
`clearLogs` it reports `totalRequests = 0`); the in-memory variant reads three
independently stored counters which admin `appendLog` does not increment and
`clearLogs` does not reset (only the proxy-internal `logRequest` bumps them),
so the two backends are not behaviorally indistinguishable under identical
store-operation traces. -/
theorem C5_stats_divergence :
    (∀ st : StoreState,
      (durStep st .getStats).1.body = .jstats (durGetStats st) ∧ (durStep st .getStats).2 = st)
    ∧ (∀ st : StoreState,
        durGetStats (durStep st .clearLogs).2
          = { totalRequests := 0, successRate := 0, avgResponseTime := 0,
              currentTarget := jvalOrNull st.config.targetApiUrl,
              lastUpdated := strOrNull st.config.updatedAt })
    ∧ (∀ ms : MemState, (memStep ms .getStats).1.body = .jstats (memGetStats ms))
    ∧ (∀ (ms : MemState) (e : LogEntry) (i t : String),
        (memStep ms (.appendLog e i t)).2.statTotal = ms.statTotal
          ∧ (memStep ms (.appendLog e i t)).2.statSuccess = ms.statSuccess
          ∧ (memStep ms (.appendLog e i t)).2.statDuration = ms.statDuration)
    ∧ (∀ ms : MemState,
        (memStep ms .clearLogs).2.statTotal = ms.statTotal
          ∧ (memGetStats (memStep ms .clearLogs).2).totalRequests = ms.statTotal)
    ∧ (∀ (ms : MemState) (e : LogEntry) (i t : String),
        (memLogRequest ms e i t).statTotal = ms.statTotal + 1) := by
  refine ⟨fun st => ⟨rfl, rfl⟩, fun st => ?_, fun ms => rfl, fun ms e i t => ?_,
    fun ms => ⟨rfl, rfl⟩, fun ms e i t => rfl⟩
  · simp [durStep, durGetStats]
  · cases haddr : addLog ms.logs e i t with
    | mk r lgs => cases r <;> simp [memStep, haddr]

/-- C6: every exception raised while constructing or issuing the outbound
upstream call is caught by `forwardRequest` and converted to a 502 response
whose body carries the generic message plus the underlying reason; the
function is total on all outcomes (no fault propagates), and a received
upstream response is relayed with its status. -/
theorem C6_forward_failure_502 :
    (∀ e : String,
      forwardRequest (.error e)
        = { status := 502, statusText := "",
            body := .jerrorMsg "Failed to forward request" e, headers := [ctJson] })
    ∧ (∀ r : UpstreamResp, (forwardRequest (.ok r)).status = r.status) := by
  exact ⟨fun e => rfl, fun r => rfl⟩

/-- C7: every invocation of the chat-completions handler — forwarding success
or handler fault — performs exactly one `logRequest` call, whose entry carries
the endpoint name, the resolved target, the resulting status (the forwarded
response's status, or 500 on a hard fault), the elapsed duration and the
timestamp; and the response as well as the logged entry are independent of
whether the logging backend fails (the failure is swallowed inside
`logRequest`). -/
theorem C7_exactly_one_log :
    ∀ (headerUrl storedUrl envUrl : Option String) (o : Oracles) (logs : List LogEntry),
      (handleChatCompletion headerUrl storedUrl envUrl o logs).appendCalls = 1
      ∧ (handleChatCompletion headerUrl storedUrl envUrl o logs).logged
        = [{ endpoint := "/v1/chat/completions",
             targetApi := getTargetApiUrl headerUrl storedUrl envUrl,
             status := match o.exn with
               | none => (forwardRequest o.upstream).status
               | some _ => 500,
             duration := (o.endT - o.startT : Nat),
             timestamp := o.now,
             error := o.exn }]
      ∧ (handleChatCompletion headerUrl storedUrl envUrl o logs).response
        = (match o.exn with
           | none => .ok (forwardRequest o.upstream)
           | some e => .error e)
      ∧ (handleChatCompletion headerUrl storedUrl envUrl { o with backendOk := true } logs).response
        = (handleChatCompletion headerUrl storedUrl envUrl { o with backendOk := false } logs).response
      ∧ (handleChatCompletion headerUrl storedUrl envUrl { o with backendOk := true } logs).logged
        = (handleChatCompletion headerUrl storedUrl envUrl { o with backendOk := false } logs).logged := by
  intro headerUrl storedUrl envUrl o logs
  cases hexn : o.exn <;>
    simp [handleChatCompletion, handleLLMEndpoint, hexn]

/-- C1 counterexample: with the configured credential `"secret"`, a request to
the admin route `/admin/test-connection` bearing the token `"admin-token"` —
which does not equal the configured credential — is not answered with 401: the
static demo token is accepted, the connectivity probe (an admin operation) is
performed, and the request succeeds. -/
theorem C1_counterexample :
    ("admin-token" ≠ "secret")
    ∧ verifyAdminAuth (some "Bearer admin-token") (some "secret") = true
    ∧ routerFetch { production := false, adminPassword := some "secret" } {}
        { https := true, method := "POST", pathname := "/admin/test-connection",
          authorization := some "Bearer admin-token",
          jsonTestUrl := some "https://up.example" } {}
      = { resp := { status := 200, body := .jmsgStatus "Connection successful" 200, headers := [ctJson] },
          store := {}, probeCalls := 1 } := by
  refine ⟨by decide, by decide, by decide⟩

/-- C1 amended: for an admin API route, the durable variant answers 401 (and
performs no store operation and no probe) exactly when `verifyAdminAuth`
rejects; but `verifyAdminAuth` accepts, besides the configured credential, the
static demo token `'admin-token'` for every configured password, and the
in-memory variant's authenticator approves every request unconditionally. -/
theorem C1_admin_auth_gate :
    (∀ (env : Env) (st : StoreState) (req : ReqModel) (o : Oracles),
      req.https = true →
      (req.pathname = "/admin/config" ∨ req.pathname = "/admin/logs"
        ∨ req.pathname = "/admin/stats" ∨ req.pathname = "/admin/test-connection") →
      verifyAdminAuth req.authorization env.adminPassword = false →
      routerFetch env st req o
        = { resp := { status := 401, body := .jerror "Unauthorized", headers := [ctJson] },
            store := st, probeCalls := 0 })
    ∧ (∀ pw : Option String, verifyAdminAuth (some "Bearer admin-token") pw = true)
    ∧ (∀ a pw : Option String, memVerifyAdminAuth a pw = true) := by
  refine ⟨?_, ?_, fun a pw => rfl⟩
  · intro env st req o hhttps hpath hv
    obtain ⟨https, method, pathname, auth, acr, xt, lim, jc, jl, jt⟩ := req
    simp only at hhttps hpath hv
    subst hhttps
    rcases hpath with h | h | h | h <;> subst h <;>
      (unfold routerFetch
       dsimp only
       rw [if_neg (by simp), if_neg (by decide), if_neg (by decide), if_pos (by decide),
         if_pos (by simp [hv])])
  · intro pw
    unfold verifyAdminAuth
    dsimp only
    have ht : replaceFirst "Bearer admin-token" "Bearer " "" = "admin-token" := by decide
    rw [if_neg (by decide), ht, if_neg (by decide)]
    simp

/-- C1 witness: the amended theorem applied to a concrete rejected request
(no Authorization header at all). -/
theorem C1_admin_auth_gate_witness :
    routerFetch { production := false, adminPassword := some "pw" } {}
        { https := true, method := "GET", pathname := "/admin/stats" } {}
      = { resp := { status := 401, body := .jerror "Unauthorized", headers := [ctJson] },
          store := {}, probeCalls := 0 } :=
  C1_admin_auth_gate.1 { production := false, adminPassword := some "pw" } {}
    { https := true, method := "GET", pathname := "/admin/stats" } {} rfl
    (Or.inr (Or.inr (Or.inl rfl))) (by decide)

/-- C2: in the durable variant, every request whose path starts with
`/api/storage` is forwarded to the Durable Object with the prefix stripped,
before and regardless of any authentication check; consequently each admin
state operation — config read, config write, log read, log append, log clear,
stats read — is performed by a concrete unauthenticated `/api/storage` request
whatever the Authorization header carries. -/
theorem C2_storage_bypasses_auth :
    (∀ (env : Env) (st : StoreState) (req : ReqModel) (o : Oracles),
      req.https = true → litStartsWith req.pathname "/api/storage" = true →
      routerFetch env st req o
        = { resp := (doFetch st { req with pathname := replaceFirst req.pathname "/api/storage" "" } o.newId o.now).1,
            store := (doFetch st { req with pathname := replaceFirst req.pathname "/api/storage" "" } o.newId o.now).2,
            probeCalls := 0 })
    ∧ (∀ (env : Env) (st : StoreState) (auth : Option String) (o : Oracles),
      (routerFetch env st { method := "GET", pathname := "/api/storage/config", authorization := auth } o).resp.body
          = .jconfig st.config
      ∧ (routerFetch env st { method := "POST", pathname := "/api/storage/config", authorization := auth, jsonConfig := some { targetApiUrl := some (.jstr "https://u.example") } } o).store.config
          = mergeConfig st.config { targetApiUrl := some (.jstr "https://u.example") } o.now
      ∧ (routerFetch env st { method := "GET", pathname := "/api/storage/logs", authorization := auth } o).resp.body
          = .jlogs (handleLogsGet st.logs none)
      ∧ (routerFetch env st { method := "POST", pathname := "/api/storage/logs", authorization := auth, jsonLog := some { endpoint := "/v1/chat/completions", timestamp := "t", status := 200, duration := 5 } } o).store.logs
          = ringPush st.logs (stampLog { endpoint := "/v1/chat/completions", timestamp := "t", status := 200, duration := 5 } o.newId o.now)
      ∧ (routerFetch env st { method := "DELETE", pathname := "/api/storage/logs", authorization := auth } o).store.logs = []
      ∧ (routerFetch env st { method := "GET", pathname := "/api/storage/stats", authorization := auth } o).resp.body
          = .jstats (durGetStats st)) := by
  constructor
  · intro env st req o hhttps hsw
    obtain ⟨https, method, pathname, auth, acr, xt, lim, jc, jl, jt⟩ := req
    simp only at hhttps hsw ⊢
    subst hhttps
    unfold routerFetch
    dsimp only
    rw [if_neg (by simp), if_pos hsw]
  · intro env st auth o
    refine ⟨?_, ?_, ?_, ?_, ?_, ?_⟩ <;>
      (unfold routerFetch
       dsimp only
       rw [if_neg (by simp), if_pos (by decide)]
       rfl)

/-- C2 witness: the pass-through equation applied to a concrete stats read. -/
theorem C2_storage_bypasses_auth_witness :
    routerFetch {} {} { https := true, method := "GET", pathname := "/api/storage/stats" } {}
      = { resp := (doFetch {} { https := true, method := "GET", pathname := replaceFirst "/api/storage/stats" "/api/storage" "" } ({} : Oracles).newId ({} : Oracles).now).1,
          store := (doFetch {} { https := true, method := "GET", pathname := replaceFirst "/api/storage/stats" "/api/storage" "" } ({} : Oracles).newId ({} : Oracles).now).2,
          probeCalls := 0 } :=
  C2_storage_bypasses_auth.1 {} {} { https := true, method := "GET", pathname := "/api/storage/stats" } {} rfl (by decide)

/-- C10 counterexample: the OPTIONS request to `/admin` is not answered with a
CORS preflight — the admin-console branch matches first, regardless of method,
and its response carries neither an `Access-Control-Allow-Methods` nor an
`Access-Control-Allow-Origin` header, refuting "for every inbound OPTIONS
request, regardless of path". -/
theorem C10_counterexample :
    (routerFetch {} {} { method := "OPTIONS", pathname := "/admin" } {}).resp
      = adminInterfaceResponse "<html></html>"
    ∧ hget (routerFetch {} {} { method := "OPTIONS", pathname := "/admin" } {}).resp.headers
        "Access-Control-Allow-Methods" = none
    ∧ hget (routerFetch {} {} { method := "OPTIONS", pathname := "/admin" } {}).resp.headers
        "Access-Control-Allow-Origin" = none := by
  refine ⟨by decide, by decide, by decide⟩

/-- C10 amended: every OPTIONS request whose path is outside the `/admin`
subtree receives a CORS preflight response — via the Durable Object's own
preflight handler for `/api/storage` paths, and via the worker's for every
other non-admin path — and these preflights carry
`Access-Control-Allow-Methods: GET, POST, PUT, DELETE, OPTIONS`, a wildcard
`Access-Control-Allow-Origin`, and echo the requested headers or fall back to
a wildcard; OPTIONS requests to `/admin`, `/admin/` or under `/admin/` are
instead handled by the console/authentication branches. -/
theorem C10_options_preflight :
    (∀ (env : Env) (st : StoreState) (req : ReqModel) (o : Oracles),
      req.https = true → req.method = "OPTIONS" →
      litStartsWith req.pathname "/api/storage" = true →
      routerFetch env st req o
        = { resp := doHandleOptions req.acrHeaders, store := st, probeCalls := 0 })
    ∧ (∀ (env : Env) (st : StoreState) (req : ReqModel) (o : Oracles),
      req.https = true → req.method = "OPTIONS" →
      litStartsWith req.pathname "/api/storage" = false →
      req.pathname ≠ "/admin" → req.pathname ≠ "/admin/" →
      litStartsWith req.pathname "/admin/" = false →
      routerFetch env st req o
        = { resp := handleOptions req.acrHeaders, store := st, probeCalls := 0 })
    ∧ (∀ a : Option String,
      hget (handleOptions a).headers "Access-Control-Allow-Methods"
          = some "GET, POST, PUT, DELETE, OPTIONS"
      ∧ hget (handleOptions a).headers "Access-Control-Allow-Origin" = some "*"
      ∧ hget (handleOptions a).headers "Access-Control-Allow-Headers" = some (jsOr a "*")
      ∧ hget (doHandleOptions a).headers "Access-Control-Allow-Methods"
          = some "GET, POST, PUT, DELETE, OPTIONS"
      ∧ hget (doHandleOptions a).headers "Access-Control-Allow-Origin" = some "*") := by
  refine ⟨?_, ?_, fun a => ⟨rfl, rfl, rfl, rfl, rfl⟩⟩
  · intro env st req o hhttps hm hsw
    obtain ⟨https, method, pathname, auth, acr, xt, lim, jc, jl, jt⟩ := req
    simp only at hhttps hm hsw ⊢
    subst hhttps
    subst hm
    unfold routerFetch
    dsimp only
    rw [if_neg (by simp), if_pos hsw]
    rfl
  · intro env st req o hhttps hm hsw h1 h2 hadm
    obtain ⟨https, method, pathname, auth, acr, xt, lim, jc, jl, jt⟩ := req
    simp only at hhttps hm hsw h1 h2 hadm ⊢
    subst hhttps
    subst hm
    unfold routerFetch
    dsimp only
    rw [if_neg (by simp), if_neg (by simp [hsw]), if_neg (by simp [h1, h2]),
      if_neg (by simp [hadm]), if_pos rfl]

/-- C10 witness: the amended theorem applied to a concrete OPTIONS request to
a non-admin path, and to a storage path. -/
theorem C10_options_preflight_witness :
    routerFetch {} {} { https := true, method := "OPTIONS", pathname := "/v1/chat/completions" } {}
      = { resp := handleOptions none, store := {}, probeCalls := 0 }
    ∧ routerFetch {} {} { https := true, method := "OPTIONS", pathname := "/api/storage/logs" } {}
      = { resp := doHandleOptions none, store := {}, probeCalls := 0 } :=
  ⟨C10_options_preflight.2.1 {} {} { https := true, method := "OPTIONS", pathname := "/v1/chat/completions" } {}
      rfl rfl (by decide) (by decide) (by decide) (by decide),
   C10_options_preflight.1 {} {} { https := true, method := "OPTIONS", pathname := "/api/storage/logs" } {}
      rfl rfl (by decide)⟩

end LLMProxy
